import Mathlib

/-!
Verification of the news retrieval and filtering interface of the
finam_RADAR frontend: the query-client URL construction (ApiService),
the filter state (NewsPage tag toggling and submit), the list view-state
(NewsPage.newsList signal lifecycle) and the detail view-state
(NewsDetailsPage), each embedded from the TypeScript source.
-/

namespace Radar

/-- News item shape from the frontend model (the variant with plain URL
strings as sources and an optional timeline of ISO date strings). -/
structure News where
  id : String
  title : String
  content : String
  tags : List String
  createdAt : String
  hotnessScore : Int
  isConfirmed : Bool
  sources : List String
  timeline : Option (List String)
  deriving DecidableEq

/-- The fixed base URL hardcoded in ApiService. -/
def baseUrl : String := "http://158.160.195.186/api"

/-- The optional filter argument of ApiService.getAllNews. -/
structure Filters where
  tags : List String
  onlyVerified : Bool
  deriving DecidableEq

/-- JS Array.prototype.join with the given separator, as used by
tags.join(',') and queryParams.join('&') in getAllNews. -/
def joinWith (sep : String) : List String → String
  | [] => ""
  | [x] => x
  | x :: xs => x ++ sep ++ joinWith sep xs

/-- The query-parameter string ApiService.getAllNews builds for a present
filter: tagsString when tags is non-empty, verifiedString when
onlyVerified, the empty candidates filtered out and the rest joined by
an ampersand. -/
def queryParamsFor (filters : Filters) : String :=
  let tags := filters.tags
  let onlyVerified := filters.onlyVerified
  let tagsString := if tags.length > 0 then "tags=" ++ joinWith "," tags else ""
  let verifiedString := if onlyVerified then "onlyConfirmed=true" else ""
  joinWith "&" (List.filter (fun p => p != "") [tagsString, verifiedString])

/-- The request URL ApiService.getAllNews issues: {baseUrl}/news, with a
question mark and the query parameters appended when those are non-empty. -/
def getAllNewsUrl : Option Filters → String
  | none => baseUrl ++ "/news"
  | some filters =>
      let q := queryParamsFor filters
      baseUrl ++ "/news" ++ (if q ≠ "" then "?" ++ q else "")

/-- The request URL ApiService.getNews issues: the id is inserted verbatim
into the template {baseUrl}/news/{id}. -/
def getNewsUrl (id : String) : String :=
  baseUrl ++ "/news/" ++ id

/-- NewsPage.onTagChange acting on the selectedTags control value: when
checked the tag is spread-appended at the end, otherwise every occurrence
is filtered out. -/
def onTagChange (currentTags : List String) (tag : String) (isChecked : Bool) :
    List String :=
  if isChecked then currentTags ++ [tag]
  else List.filter (fun t => t != tag) currentTags

/-- A sequence of onTagChange operations applied from the initial empty
selection of the filters form. -/
def applyToggles (ops : List (String × Bool)) : List String :=
  ops.foldl (fun acc op => onTagChange acc op.1 op.2) []

/-- NewsPage.onFiltersSubmit: reads the selected tags and the confirmed-only
flag from the form and issues getAllNews with them; the value is the
request URL of that call. -/
def onFiltersSubmit (selectedTags : List String) (onlyConfirmed : Bool) : String :=
  getAllNewsUrl (some { tags := selectedTags, onlyVerified := onlyConfirmed })

/-- The error taxonomy of the query client. -/
inductive ApiError where
  | notFound
  | transportError
  | decodeError
  deriving DecidableEq

/-- Modelled from the spec: the remote collaborator (the REST API, absent
from the repository) holds a sequence of news items and answers
GET /news/{id} with the item whose id matches, or a not-found response. -/
def lookupNews (server : List News) (id : String) : Option News :=
  server.find? (fun n => n.id == id)

/-- ApiService.getNews composed with the modelled collaborator: the decoded
single item, or the NotFound failure when the collaborator reports no
matching identifier. -/
def getNews (server : List News) (id : String) : Except ApiError News :=
  match lookupNews server id with
  | some n => Except.ok n
  | none => Except.error ApiError.notFound

/-- Modelled from the spec: the collaborator's unfiltered GET /news returns
the full seeded sequence of items. -/
def listNewsUnfiltered (server : List News) : List News := server

/-- The list view-state of NewsPage: the newsList signal (null or a held
list) together with whether a list fetch subscription is pending. -/
structure NewsPageState where
  newsList : Option (List News)
  pendingFetch : Bool
  deriving DecidableEq

/-- Construction: newsList = signal(null), no fetch issued yet. -/
def initialNewsPage : NewsPageState :=
  { newsList := none, pendingFetch := false }

/-- Applying a fetch outcome to the held list: the subscribe call passes
only a next handler, so a successful response replaces the held list and
an error delivery leaves the signal untouched. -/
def applyListFetch (s : Option (List News)) (r : Except ApiError (List News)) :
    Option (List News) :=
  match r with
  | Except.ok news => some news
  | Except.error _ => s

/-- NewsPage.ngOnInit: subscribes to the unfiltered getAllNews(); the new
state and the request URL of the issued fetch. -/
def ngOnInit (s : NewsPageState) : NewsPageState × String :=
  ({ s with pendingFetch := true }, getAllNewsUrl none)

/-- Delivery of a list-fetch outcome to the pending subscription. -/
def deliverListResponse (s : NewsPageState) (r : Except ApiError (List News)) :
    NewsPageState :=
  { newsList := applyListFetch s.newsList r, pendingFetch := false }

/-- The spec's phases of a list view-state: Empty before any fetch, Loading
while a fetch is pending and no data is held, Populated once data is held. -/
inductive ListPhase where
  | Empty
  | Loading
  | Populated (items : List News)
  deriving DecidableEq

/-- The phase of a NewsPage state. -/
def phase (s : NewsPageState) : ListPhase :=
  match s.newsList with
  | some items => ListPhase.Populated items
  | none => if s.pendingFetch then ListPhase.Loading else ListPhase.Empty

/-- The detail view-state of NewsDetailsPage: the identifier read from the
route and the held item. -/
structure NewsDetailsState where
  newsId : Option String
  news : Option News
  deriving DecidableEq

/-- NewsDetailsPage.ngOnInit: reads the id from the route snapshot; when it
is present a getNews(id) fetch is issued. The value is the new state and
the request URL of the issued fetch, if any. -/
def detailsNgOnInit (routeId : Option String) : NewsDetailsState × Option String :=
  match routeId with
  | some id => ({ newsId := some id, news := none }, some (getNewsUrl id))
  | none => ({ newsId := none, news := none }, none)

/-- A full run of NewsDetailsPage against a modelled collaborator: with an
id present, the issued fetch's successful response populates news and a
failure leaves it absent; with no id, no fetch is issued and the state
stays empty. -/
def runDetails (routeId : Option String) (server : List News) : NewsDetailsState :=
  match routeId with
  | some id =>
      match getNews server id with
      | Except.ok n => { newsId := some id, news := some n }
      | Except.error _ => { newsId := some id, news := none }
  | none => { newsId := none, news := none }

/-- First seeded fixture item of the early hardcoded newsList. -/
def newsItem1 : News :=
  { id := "1"
    title := "Запуск новой версии искусственного интеллекта от ведущей компании"
    content := "Сегодня состоялся релиз обновленной версии ИИ-системы, которая демонстрирует революционные возможности в обработке естественного языка и генерации контента."
    tags := ["технологии", "искусственный интеллект", "инновации"]
    createdAt := "2024-01-15T10:30:00.000Z"
    hotnessScore := 100
    isConfirmed := true
    sources := ["https://technews.com/ai-launch", "https://innovation.org/update"]
    timeline := some ["2024-01-10T09:00:00.000Z", "2024-01-14T15:20:00.000Z"] }

/-- Second seeded fixture item. -/
def newsItem2 : News :=
  { id := "2"
    title := "Прорыв в квантовых вычислениях: достигнута новая веха"
    content := "Ученые объявили о значительном прогрессе в области квантовых компьютеров, увеличив стабильность кубитов в 5 раз по сравнению с предыдущими показателями."
    tags := ["наука", "квантовые вычисления", "технологии"]
    createdAt := "2024-01-14T14:45:00.000Z"
    hotnessScore := 88
    isConfirmed := true
    sources := ["https://sciencejournal.org/quantum", "https://research.edu/breakthrough"]
    timeline := none }

/-- Third seeded fixture item. -/
def newsItem3 : News :=
  { id := "3"
    title := "Кибератака на крупный финансовый институт: детали инцидента"
    content := "В результате сложной кибератаки пострадали системы одного из крупнейших банков. Эксперты работают над восстановлением и расследованием происшествия."
    tags := ["кибербезопасность", "финансы", "происшествия"]
    createdAt := "2024-01-15T08:15:00.000Z"
    hotnessScore := 50
    isConfirmed := false
    sources := ["https://securitywatch.com/incident", "https://finance-news.net/attack"]
    timeline := some ["2024-01-14T22:30:00.000Z", "2024-01-15T02:45:00.000Z", "2024-01-15T07:00:00.000Z"] }

/-- Fourth seeded fixture item. -/
def newsItem4 : News :=
  { id := "4"
    title := "Революционное открытие в медицине: новый метод лечения онкологии"
    content := "Исследовательская группа представила инновационный подход к терапии раковых заболеваний, показавший эффективность 85% в клинических испытаниях."
    tags := ["медицина", "онкология", "здоровье"]
    createdAt := "2024-01-13T11:20:00.000Z"
    hotnessScore := 32
    isConfirmed := true
    sources := ["https://medicalbreakthroughs.org/cancer", "https://health-research.edu/therapy"]
    timeline := none }

/-- Fifth seeded fixture item. -/
def newsItem5 : News :=
  { id := "5"
    title := "Климатический саммит: мировые лидеры договорились о новых обязательствах"
    content := "По итогам экстренного климатического саммита принята резолюция с конкретными целями по сокращению выбросов и переходу на зеленую энергетику."
    tags := ["экология", "политика", "климат"]
    createdAt := "2024-01-15T16:00:00.000Z"
    hotnessScore := 84
    isConfirmed := true
    sources := ["https://climate-news.net/summit", "https://global-politics.org/agreement"]
    timeline := some ["2024-01-14T10:00:00.000Z", "2024-01-15T09:30:00.000Z"] }

/-- The five-item fixture collaborator seeded from the early hardcoded
newsList of the news page. -/
def fixtureNews : List News :=
  [newsItem1, newsItem2, newsItem3, newsItem4, newsItem5]

/-- A string with a non-empty left component of an append is non-empty. -/
lemma append_ne_empty_of_left (a b : String) (h : a ≠ "") : a ++ b ≠ "" := by
  intro hc
  apply h
  have h2 : a.data ++ b.data = [] := by
    rw [← String.data_append, hc]
  exact String.ext (List.append_eq_nil.mp h2).1

/-- The serialized tags parameter is never the empty string. -/
lemma tags_string_ne_empty (s : String) : "tags=" ++ s ≠ "" :=
  append_ne_empty_of_left _ _ (by decide)

/-- Query parameters for an empty tag list: only the confirmed flag, when set. -/
lemma queryParamsFor_nil (ov : Bool) :
    queryParamsFor { tags := [], onlyVerified := ov } =
      if ov then "onlyConfirmed=true" else "" := by
  cases ov <;> rfl

/-- Query parameters for a non-empty tag list: the tags parameter holds the
comma-joined tags, followed by the confirmed flag when set. -/
lemma queryParamsFor_cons (t : String) (ts : List String) (ov : Bool) :
    queryParamsFor { tags := t :: ts, onlyVerified := ov } =
      "tags=" ++ joinWith "," (t :: ts) ++
        (if ov then "&" ++ "onlyConfirmed=true" else "") := by
  have hp : (("tags=" ++ joinWith "," (t :: ts)) != "") = true := by
    rw [bne_iff_ne]
    exact tags_string_ne_empty _
  cases ov <;>
    simp [queryParamsFor, List.filter_cons, hp, joinWith, String.append_assoc]

/-- The URL for a non-empty tag list carries the query string after a
question mark. -/
lemma getAllNewsUrl_cons (t : String) (ts : List String) (ov : Bool) :
    getAllNewsUrl (some { tags := t :: ts, onlyVerified := ov }) =
      baseUrl ++ "/news" ++ ("?" ++ ("tags=" ++ joinWith "," (t :: ts) ++
        (if ov then "&" ++ "onlyConfirmed=true" else ""))) := by
  have hq2 : ("tags=" ++ joinWith "," (t :: ts) ++
      (if ov then "&" ++ "onlyConfirmed=true" else "")) ≠ "" :=
    append_ne_empty_of_left _ _ (tags_string_ne_empty _)
  simp only [getAllNewsUrl, queryParamsFor_cons, if_pos hq2]

/-- The first matching item is the unique matching item when ids are
pairwise distinct. -/
lemma lookup_unique (id : String) (item : News) :
    ∀ server : List News, item ∈ server → item.id = id →
      server.Pairwise (fun a b => a.id ≠ b.id) →
      lookupNews server id = some item := by
  intro server
  induction server with
  | nil => intro h _ _; exact absurd h (List.not_mem_nil _)
  | cons a l ih =>
      intro hmem hid hpw
      have hpw2 := List.pairwise_cons.mp hpw
      rcases List.mem_cons.mp hmem with rfl | hmem2
      · have hpa : (item.id == id) = true := beq_iff_eq.mpr hid
        show List.find? (fun n => n.id == id) (item :: l) = some item
        exact List.find?_cons_of_pos _ hpa
      · have hne : ¬ ((a.id == id) = true) := by
          rw [beq_iff_eq]
          intro hc
          exact (hpw2.1 item hmem2) (hc.trans hid.symm)
        have step := List.find?_cons_of_neg (p := fun n => n.id == id) l hne
        calc lookupNews (a :: l) id = lookupNews l id := step
          _ = some item := ih hmem2 hid hpw2.2

/-- Claim C1 (counterexample): toggling the same tag on twice from the empty
selection leaves two occurrences of the tag, so the selected-tags
collection does contain a duplicate after that toggle sequence. -/
theorem toggle_same_tag_on_twice_duplicates :
    (applyToggles [("a", true), ("a", true)]).count "a" = 2 := by
  decide

/-- Claim C1 (amended): onTagChange with isSelected true appends the tag to
the end of the selection unconditionally — without checking whether it is
already present — so each on-toggle increases the tag's occurrence count by
exactly one; the no-duplicates invariant therefore fails for toggle
sequences that switch the same tag on twice. -/
theorem onTagChange_true_appends_unconditionally (s : List String) (tag : String) :
    onTagChange s tag true = s ++ [tag]
    ∧ tag ∈ onTagChange s tag true
    ∧ (onTagChange s tag true).count tag = s.count tag + 1 := by
  refine ⟨rfl, ?_, ?_⟩
  · simp [onTagChange]
  · simp [onTagChange]

/-- Claim C2: against the modelled collaborator, getNews yields the NotFound
failure — never a decoded item — for every identifier no held item matches,
and yields exactly the matching item when one is held (ids being pairwise
distinct, as the collaborator assigns them uniquely). -/
theorem getNews_notFound_or_unique (server : List News) (id : String) :
    ((∀ n ∈ server, n.id ≠ id) → getNews server id = Except.error ApiError.notFound)
    ∧ (∀ item : News, item ∈ server → item.id = id →
        server.Pairwise (fun a b => a.id ≠ b.id) →
        getNews server id = Except.ok item) := by
  constructor
  · intro h
    have hl : lookupNews server id = none := by
      apply List.find?_eq_none.mpr
      intro n hn
      rw [beq_iff_eq]
      exact h n hn
    rw [getNews, hl]
  · intro item hmem hid hpw
    rw [getNews, lookup_unique id item server hmem hid hpw]

/-- Claim C2 (witness): the five-item fixture collaborator yields NotFound
for a missing identifier and exactly the third item for id "3". -/
theorem getNews_notFound_or_unique_witness :
    getNews fixtureNews "missing-id" = Except.error ApiError.notFound
    ∧ getNews fixtureNews "3" = Except.ok newsItem3 :=
  ⟨(getNews_notFound_or_unique fixtureNews "missing-id").1 (by decide),
   (getNews_notFound_or_unique fixtureNews "3").2 newsItem3
     (by decide) (by decide) (by decide)⟩

/-- Claim C3: for every filter with a non-empty tag sequence, the request
URL carries a tags= parameter whose value is exactly the tags joined by
commas in selection order; submitting selected tags Финансы,Финтех with the
confirmed-only flag off produces the request path /news?tags=Финансы,Финтех. -/
theorem nonempty_tags_comma_joined (f : Filters) (h : f.tags ≠ []) :
    getAllNewsUrl (some f) =
      baseUrl ++ "/news" ++ ("?" ++ ("tags=" ++ joinWith "," f.tags ++
        (if f.onlyVerified then "&" ++ "onlyConfirmed=true" else "")))
    ∧ onFiltersSubmit ["Финансы", "Финтех"] false =
        baseUrl ++ "/news?tags=Финансы,Финтех" := by
  constructor
  · obtain ⟨tags, ov⟩ := f
    cases tags with
    | nil => exact absurd rfl h
    | cons t ts => exact getAllNewsUrl_cons t ts ov
  · decide

/-- Claim C3 (witness): the comma-joined tags parameter at the concrete
filter of the spec's scenario. -/
theorem nonempty_tags_comma_joined_witness :
    getAllNewsUrl (some { tags := ["Финансы", "Финтех"], onlyVerified := false }) =
      baseUrl ++ "/news" ++ ("?" ++ ("tags=" ++ joinWith "," ["Финансы", "Финтех"] ++
        (if false then "&" ++ "onlyConfirmed=true" else "")))
    ∧ onFiltersSubmit ["Финансы", "Финтех"] false =
        baseUrl ++ "/news?tags=Финансы,Финтех" :=
  nonempty_tags_comma_joined { tags := ["Финансы", "Финтех"], onlyVerified := false }
    (by decide)

/-- Claim C4: a present filter with an empty tag sequence and the verified
flag off produces exactly the unfiltered request URL {baseUrl}/news, the
same URL as a call with no filter argument at all. -/
theorem empty_filter_same_as_unfiltered (f : Filters)
    (h1 : f.tags = []) (h2 : f.onlyVerified = false) :
    getAllNewsUrl (some f) = getAllNewsUrl none
    ∧ getAllNewsUrl none = baseUrl ++ "/news" := by
  obtain ⟨tags, ov⟩ := f
  cases h1
  cases h2
  exact ⟨by decide, by decide⟩

/-- Claim C4 (witness): the empty filter at its concrete value. -/
theorem empty_filter_same_as_unfiltered_witness :
    getAllNewsUrl (some { tags := [], onlyVerified := false }) = getAllNewsUrl none
    ∧ getAllNewsUrl none = baseUrl ++ "/news" :=
  empty_filter_same_as_unfiltered { tags := [], onlyVerified := false } rfl rfl

/-- Claim C5: for every present filter, the tags parameter is serialized
exactly when the tag sequence is non-empty and onlyConfirmed=true appears
exactly when onlyVerified is true; empty or false parameters are omitted
entirely, and two present parameters are joined by a single ampersand. -/
theorem getAllNewsUrl_serialization (f : Filters) :
    getAllNewsUrl (some f) =
      baseUrl ++ "/news" ++
        (if f.tags.isEmpty then
          (if f.onlyVerified then "?" ++ "onlyConfirmed=true" else "")
        else
          "?" ++ ("tags=" ++ joinWith "," f.tags ++
            (if f.onlyVerified then "&" ++ "onlyConfirmed=true" else ""))) := by
  obtain ⟨tags, ov⟩ := f
  cases tags with
  | nil => cases ov <;> decide
  | cons t ts =>
      rw [getAllNewsUrl_cons]
      simp [List.isEmpty_cons]

/-- Claim C6: a failed fetch delivery (transport or decode error) leaves the
held list state exactly as it was: a populated state keeps its item
sequence, an empty state stays empty, and the newsList signal of the page
state is unchanged. -/
theorem failed_fetch_preserves_list (s : Option (List News)) (e : ApiError)
    (st : NewsPageState) (items : List News) :
    applyListFetch s (Except.error e) = s
    ∧ applyListFetch (some items) (Except.error e) = some items
    ∧ applyListFetch none (Except.error e) = none
    ∧ (deliverListResponse st (Except.error e)).newsList = st.newsList :=
  ⟨rfl, rfl, rfl, rfl⟩

/-- Claim C7: the list view-state starts Empty at construction; ngOnInit
issues the unfiltered listNews request and transitions to Loading
immediately; a successful response transitions to Populated holding exactly
the collaborator's sequence — for the five-item fixture collaborator,
exactly those five items. -/
theorem list_view_state_lifecycle :
    phase initialNewsPage = ListPhase.Empty
    ∧ (ngOnInit initialNewsPage).2 = getAllNewsUrl none
    ∧ (ngOnInit initialNewsPage).2 = baseUrl ++ "/news"
    ∧ phase (ngOnInit initialNewsPage).1 = ListPhase.Loading
    ∧ (∀ server : List News,
        phase (deliverListResponse (ngOnInit initialNewsPage).1
          (Except.ok (listNewsUnfiltered server))) = ListPhase.Populated server)
    ∧ phase (deliverListResponse (ngOnInit initialNewsPage).1
        (Except.ok (listNewsUnfiltered fixtureNews))) = ListPhase.Populated fixtureNews
    ∧ fixtureNews.length = 5 :=
  ⟨rfl, rfl, rfl, rfl, fun _ => rfl, rfl, rfl⟩

/-- Claim C8: when no identifier is present in the navigation location, the
detail view-state issues no fetch and remains Empty permanently: whatever
the collaborator holds, the run ends with no held item. -/
theorem details_no_id_no_fetch (server : List News) :
    (detailsNgOnInit none).2 = none
    ∧ (detailsNgOnInit none).1.news = none
    ∧ runDetails none server = { newsId := none, news := none }
    ∧ (runDetails none server).news = none :=
  ⟨rfl, rfl, rfl, rfl⟩

/-- Claim C9: toggling a tag off removes every occurrence of it from the
selection; toggling off a tag that is not selected leaves the selection
exactly unchanged, and the off-toggle is idempotent. -/
theorem toggle_off_removes_all (s : List String) (tag : String) :
    tag ∉ onTagChange s tag false
    ∧ (tag ∉ s → onTagChange s tag false = s)
    ∧ onTagChange (onTagChange s tag false) tag false = onTagChange s tag false := by
  refine ⟨?_, ?_, ?_⟩
  · simp [onTagChange]
  · intro hns
    simp only [onTagChange, if_neg (by simp : ¬ (false = true))]
    apply List.filter_eq_self.mpr
    intro a ha
    rw [bne_iff_ne]
    intro hc
    exact hns (hc ▸ ha)
  · simp only [onTagChange, if_neg (by simp : ¬ (false = true))]
    apply List.filter_eq_self.mpr
    intro a ha
    exact (List.mem_filter.mp ha).2

/-- Claim C9 (witness): toggling off a never-selected tag at a concrete
selection is a no-op. -/
theorem toggle_off_removes_all_witness :
    onTagChange ["b"] "a" false = ["b"] :=
  (toggle_off_removes_all ["b"] "a").2.1 (by decide)

/-- Claim C10: getNews builds its request URL by inserting the id verbatim
into the template {baseUrl}/news/{id} — a deterministic injective function
of the id, with no escaping: reserved characters and the empty id alter the
path accordingly. -/
theorem getNewsUrl_verbatim_template :
    (∀ id : String, getNewsUrl id = baseUrl ++ "/news/" ++ id)
    ∧ (∀ a b : String, getNewsUrl a = getNewsUrl b → a = b)
    ∧ getNewsUrl "" = baseUrl ++ "/news/"
    ∧ getNewsUrl "a/b" = baseUrl ++ "/news/a/b"
    ∧ getNewsUrl "x?q=1&r=2" = baseUrl ++ "/news/" ++ "x?q=1&r=2" := by
  refine ⟨fun _ => rfl, ?_, by decide, by decide, rfl⟩
  intro a b h
  have h2 := congrArg String.data h
  simp only [getNewsUrl, String.data_append] at h2
  exact String.ext (List.append_cancel_left h2)

/-- Claim C10 (witness): the verbatim template at a concrete id. -/
theorem getNewsUrl_verbatim_template_witness :
    getNewsUrl "3" = baseUrl ++ "/news/" ++ "3" :=
  getNewsUrl_verbatim_template.1 "3"

end Radar
